import Mathlib

/-!
Shallow embedding of the Mira v1.5 real-estate backend (mira_app.py) and
proofs about its document-intelligence and transaction-state core.

Dates are modelled as integers counting days, so that
`date + datetime.timedelta(days = k)` becomes integer addition.
Python strings are modelled via their character lists; the Python
operations `str.strip`, `str.lower`, `needle in hay`, and
`any(c.isdigit() ...)` are given executable ASCII models below.
-/

/-- Model of the character class stripped by Python `str.strip()`
(ASCII whitespace). -/
def wsChar (c : Char) : Bool :=
  c == ' ' || c == '\t' || c == '\n' || c == '\r' || c == '\x0b' || c == '\x0c'

/-- ASCII model of Python `str.lower` on a single character. -/
def lowerChar (c : Char) : Char :=
  match c with
  | 'A' => 'a'
  | 'B' => 'b'
  | 'C' => 'c'
  | 'D' => 'd'
  | 'E' => 'e'
  | 'F' => 'f'
  | 'G' => 'g'
  | 'H' => 'h'
  | 'I' => 'i'
  | 'J' => 'j'
  | 'K' => 'k'
  | 'L' => 'l'
  | 'M' => 'm'
  | 'N' => 'n'
  | 'O' => 'o'
  | 'P' => 'p'
  | 'Q' => 'q'
  | 'R' => 'r'
  | 'S' => 's'
  | 'T' => 't'
  | 'U' => 'u'
  | 'V' => 'v'
  | 'W' => 'w'
  | 'X' => 'x'
  | 'Y' => 'y'
  | 'Z' => 'z'
  | other => other

/-- Strip leading and trailing whitespace from a character list. -/
def stripChars (l : List Char) : List Char :=
  ((l.dropWhile wsChar).reverse.dropWhile wsChar).reverse

/-- Model of Python `str.strip()`. -/
def pyStrip (s : String) : String := ⟨stripChars s.data⟩

/-- Model of Python `str.lower()`. -/
def pyLower (s : String) : String := ⟨s.data.map lowerChar⟩

/-- Does the first list occur as a leading segment of the second? -/
def leadsList : List Char → List Char → Bool
  | [], _ => true
  | _ :: _, [] => false
  | a :: as, b :: bs => a == b && leadsList as bs

/-- Does the first list occur as a contiguous segment of the second?
Model of the Python `needle in hay` test on strings. -/
def containsList (needle : List Char) : List Char → Bool
  | [] => leadsList needle []
  | b :: bs => leadsList needle (b :: bs) || containsList needle bs

/-- Model of Python `needle in hay` for strings. -/
def pyContains (needle hay : String) : Bool := containsList needle.data hay.data

/-- Model of Python `any(char.isdigit() for char in line)`. -/
def hasDigit (s : String) : Bool := s.data.any Char.isDigit

lemma containsList_ne_nil {n : List Char} (hn : n ≠ []) {l : List Char}
    (h : containsList n l = true) : l ≠ [] := by
  intro he
  subst he
  cases n with
  | nil => exact hn rfl
  | cons a as => simp [containsList, leadsList] at h

lemma wsChar_lowerChar (c : Char) : wsChar (lowerChar c) = wsChar c := by
  unfold lowerChar
  split <;> rfl

lemma wsChar_comp_lowerChar : wsChar ∘ lowerChar = wsChar := by
  funext c
  exact wsChar_lowerChar c

lemma stripChars_map_lowerChar (l : List Char) :
    stripChars (l.map lowerChar) = (stripChars l).map lowerChar := by
  unfold stripChars
  rw [List.dropWhile_map, wsChar_comp_lowerChar, ← List.map_reverse,
    List.dropWhile_map, wsChar_comp_lowerChar, ← List.map_reverse]

/-- Structured extraction result of `extract_realist_data`; field names are
the keys of the `extracted_data` dict in mira_app.py. -/
structure RealistData where
  property_address : String
  listing_price : String
  mls_number : String
  square_footage : String
  lot_size : String
  year_built : String
  bedrooms : String
  bathrooms : String
  property_type : String
  tax_id : String
  legal_description : String
  subdivision : String
  zoning : String
  assessed_value : String
  owner_of_record : String
  listing_agent : String
  listing_office : String
deriving DecidableEq

/-- The initial all-empty record built at the top of `extract_realist_data`. -/
def emptyRealist : RealistData :=
  ⟨"", "", "", "", "", "", "", "", "", "", "", "", "", "", "", "", ""⟩

/-- The per-line normalisation `line_lower = line.lower().strip()`. -/
def lineLower (line : String) : String := pyStrip (pyLower line)

def predAddress (line : String) : Bool :=
  pyContains "address" (lineLower line) && hasDigit line

def predPrice (line : String) : Bool :=
  pyContains "$" line &&
    (pyContains "price" (lineLower line) || pyContains "list" (lineLower line))

def predMls (line : String) : Bool :=
  pyContains "mls" (lineLower line) && hasDigit line

def predSqft (line : String) : Bool :=
  pyContains "sq" (lineLower line) && pyContains "ft" (lineLower line)

def predLotSize (line : String) : Bool := pyContains "lot size" (lineLower line)

def predYearBuilt (line : String) : Bool := pyContains "year built" (lineLower line)

def predBed (line : String) : Bool := pyContains "bed" (lineLower line)

def predBath (line : String) : Bool := pyContains "bath" (lineLower line)

def predPropType (line : String) : Bool := pyContains "type" (lineLower line)

def predTaxId (line : String) : Bool :=
  pyContains "tax id" (lineLower line) || pyContains "parcel" (lineLower line)

def predLegal (line : String) : Bool := pyContains "legal" (lineLower line)

def predSubdivision (line : String) : Bool :=
  pyContains "subdivision" (lineLower line)

def predZoning (line : String) : Bool := pyContains "zoning" (lineLower line)

def predAssessed (line : String) : Bool :=
  pyContains "assessed" (lineLower line) || pyContains "assessment" (lineLower line)

def predOwner (line : String) : Bool := pyContains "owner" (lineLower line)

/-- One iteration of the `for line in lines` loop of `extract_realist_data`:
each matching predicate overwrites its field with `line.strip()`.  The
Python loop body is a sequence of independent `if` statements assigning
distinct keys, so it is equivalent to this simultaneous record update. -/
def updateLine (r : RealistData) (line : String) : RealistData :=
  { property_address := if predAddress line then pyStrip line else r.property_address
    listing_price := if predPrice line then pyStrip line else r.listing_price
    mls_number := if predMls line then pyStrip line else r.mls_number
    square_footage := if predSqft line then pyStrip line else r.square_footage
    lot_size := if predLotSize line then pyStrip line else r.lot_size
    year_built := if predYearBuilt line then pyStrip line else r.year_built
    bedrooms := if predBed line then pyStrip line else r.bedrooms
    bathrooms := if predBath line then pyStrip line else r.bathrooms
    property_type := if predPropType line then pyStrip line else r.property_type
    tax_id := if predTaxId line then pyStrip line else r.tax_id
    legal_description := if predLegal line then pyStrip line else r.legal_description
    subdivision := if predSubdivision line then pyStrip line else r.subdivision
    zoning := if predZoning line then pyStrip line else r.zoning
    assessed_value := if predAssessed line then pyStrip line else r.assessed_value
    owner_of_record := if predOwner line then pyStrip line else r.owner_of_record
    listing_agent := r.listing_agent
    listing_office := r.listing_office }

/-- Function `extract_realist_data` from mira_app.py.  The input is the list of
lines of the text extracted from the first (up to) three pages of the
document; `none` models a document that cannot be read, in which case the
`except` branch returns the initial all-empty record. -/
def extract_realist_data : Option (List String) → RealistData
  | none => emptyRealist
  | some lines => lines.foldl updateLine emptyRealist

/-- The seventeen field values of a record, in dict insertion order. -/
def fieldsOf (r : RealistData) : List String :=
  [r.property_address, r.listing_price, r.mls_number, r.square_footage,
   r.lot_size, r.year_built, r.bedrooms, r.bathrooms, r.property_type,
   r.tax_id, r.legal_description, r.subdivision, r.zoning, r.assessed_value,
   r.owner_of_record, r.listing_agent, r.listing_office]

lemma stripChars_eq_nil_of_strip_lower {line : String}
    (h : stripChars ((pyLower line).data) ≠ []) : stripChars line.data ≠ [] := by
  intro he
  apply h
  show stripChars (line.data.map lowerChar) = []
  rw [stripChars_map_lowerChar, he]
  rfl

lemma pred_strip_ne (needle : String) {line : String} (hn : needle.data ≠ [])
    (h : pyContains needle (lineLower line) = true) : pyStrip line ≠ "" := by
  have h1 : (lineLower line).data ≠ [] := containsList_ne_nil hn h
  have h2 : stripChars ((pyLower line).data) ≠ [] := h1
  have h3 : stripChars line.data ≠ [] := stripChars_eq_nil_of_strip_lower h2
  intro hs
  apply h3
  have : (pyStrip line).data = ("" : String).data := by rw [hs]
  simpa [pyStrip] using this

/-- Invariant for C3: a field value is empty or the stripped text of an
input line whose stripped text is non-empty. -/
def GoodField (lines : List String) (f : String) : Prop :=
  f = "" ∨ ∃ l ∈ lines, f = pyStrip l ∧ pyStrip l ≠ ""

lemma goodField_ite {lines : List String} {line old : String}
    (hline : line ∈ lines) (c : Bool) (hold : GoodField lines old)
    (hne : c = true → pyStrip line ≠ "") :
    GoodField lines (if c then pyStrip line else old) := by
  cases c with
  | false => exact hold
  | true => exact Or.inr ⟨line, hline, rfl, hne rfl⟩

lemma updateLine_good {lines : List String} {r : RealistData} {line : String}
    (hr : ∀ f ∈ fieldsOf r, GoodField lines f) (hline : line ∈ lines) :
    ∀ f ∈ fieldsOf (updateLine r line), GoodField lines f := by
  intro f hf
  simp only [fieldsOf, updateLine, List.mem_cons, List.not_mem_nil, or_false] at hf
  rcases hf with rfl | rfl | rfl | rfl | rfl | rfl | rfl | rfl | rfl | rfl | rfl |
    rfl | rfl | rfl | rfl | rfl | rfl
  · exact goodField_ite hline _ (hr _ (by simp [fieldsOf]))
      (fun hc => pred_strip_ne "address" (by decide)
        (by simp only [predAddress, Bool.and_eq_true] at hc; exact hc.1))
  · refine goodField_ite hline _ (hr _ (by simp [fieldsOf])) (fun hc => ?_)
    simp only [predPrice, Bool.and_eq_true, Bool.or_eq_true] at hc
    rcases hc.2 with h | h
    · exact pred_strip_ne "price" (by decide) h
    · exact pred_strip_ne "list" (by decide) h
  · exact goodField_ite hline _ (hr _ (by simp [fieldsOf]))
      (fun hc => pred_strip_ne "mls" (by decide)
        (by simp only [predMls, Bool.and_eq_true] at hc; exact hc.1))
  · exact goodField_ite hline _ (hr _ (by simp [fieldsOf]))
      (fun hc => pred_strip_ne "sq" (by decide)
        (by simp only [predSqft, Bool.and_eq_true] at hc; exact hc.1))
  · exact goodField_ite hline _ (hr _ (by simp [fieldsOf]))
      (fun hc => pred_strip_ne "lot size" (by decide) hc)
  · exact goodField_ite hline _ (hr _ (by simp [fieldsOf]))
      (fun hc => pred_strip_ne "year built" (by decide) hc)
  · exact goodField_ite hline _ (hr _ (by simp [fieldsOf]))
      (fun hc => pred_strip_ne "bed" (by decide) hc)
  · exact goodField_ite hline _ (hr _ (by simp [fieldsOf]))
      (fun hc => pred_strip_ne "bath" (by decide) hc)
  · exact goodField_ite hline _ (hr _ (by simp [fieldsOf]))
      (fun hc => pred_strip_ne "type" (by decide) hc)
  · refine goodField_ite hline _ (hr _ (by simp [fieldsOf])) (fun hc => ?_)
    simp only [predTaxId, Bool.or_eq_true] at hc
    rcases hc with h | h
    · exact pred_strip_ne "tax id" (by decide) h
    · exact pred_strip_ne "parcel" (by decide) h
  · exact goodField_ite hline _ (hr _ (by simp [fieldsOf]))
      (fun hc => pred_strip_ne "legal" (by decide) hc)
  · exact goodField_ite hline _ (hr _ (by simp [fieldsOf]))
      (fun hc => pred_strip_ne "subdivision" (by decide) hc)
  · exact goodField_ite hline _ (hr _ (by simp [fieldsOf]))
      (fun hc => pred_strip_ne "zoning" (by decide) hc)
  · refine goodField_ite hline _ (hr _ (by simp [fieldsOf])) (fun hc => ?_)
    simp only [predAssessed, Bool.or_eq_true] at hc
    rcases hc with h | h
    · exact pred_strip_ne "assessed" (by decide) h
    · exact pred_strip_ne "assessment" (by decide) h
  · exact goodField_ite hline _ (hr _ (by simp [fieldsOf]))
      (fun hc => pred_strip_ne "owner" (by decide) hc)
  · exact hr _ (by simp [fieldsOf])
  · exact hr _ (by simp [fieldsOf])

lemma foldl_updateLine_good {lines : List String} :
    ∀ ls : List String, (∀ l ∈ ls, l ∈ lines) → ∀ r : RealistData,
      (∀ f ∈ fieldsOf r, GoodField lines f) →
      ∀ f ∈ fieldsOf (ls.foldl updateLine r), GoodField lines f := by
  intro ls
  induction ls with
  | nil => intro _ r hr; exact hr
  | cons x xs ih =>
    intro hsub r hr
    simp only [List.foldl_cons]
    exact ih (fun l hl => hsub l (List.mem_cons_of_mem _ hl)) _
      (updateLine_good hr (hsub x (List.mem_cons_self x xs)))

/-- C3: for every input (including an unreadable document, modelled by
`none`), `extract_realist_data` terminates and returns a record in which
every field is either the empty string or a non-empty trimmed line taken
from the input text; when the document cannot be read, every field of the
returned record is empty. -/
theorem extract_realist_spec (input : Option (List String)) :
    extract_realist_data none = emptyRealist ∧
    ∀ f ∈ fieldsOf (extract_realist_data input),
      f = "" ∨ ∃ l ∈ input.getD [], f = pyStrip l ∧ pyStrip l ≠ "" := by
  constructor
  · rfl
  · cases input with
    | none =>
      intro f hf
      left
      simp only [extract_realist_data, emptyRealist, fieldsOf, List.mem_cons,
        List.not_mem_nil, or_false, or_self] at hf
      exact hf
    | some lines =>
      intro f hf
      have hg : GoodField lines f := by
        refine foldl_updateLine_good lines (fun l hl => hl) emptyRealist ?_ f hf
        intro f0 hf0
        left
        simp only [emptyRealist, fieldsOf, List.mem_cons, List.not_mem_nil,
          or_false, or_self] at hf0
        exact hf0
      simpa [GoodField] using hg

/-- Witness for C3 at a concrete input line. -/
theorem extract_realist_spec_witness :
    (extract_realist_data (some ["  Year Built: 1999  "])).year_built = "" ∨
      ∃ l ∈ (some ["  Year Built: 1999  "] : Option (List String)).getD [],
        (extract_realist_data (some ["  Year Built: 1999  "])).year_built = pyStrip l ∧
          pyStrip l ≠ "" :=
  (extract_realist_spec (some ["  Year Built: 1999  "])).2 _ (by simp [fieldsOf])

/-- The fifteen predicate/field pairs of the extraction loop, in the order
the `if` statements appear in `extract_realist_data` (the two agent fields
have no predicate and are never written). -/
def fieldSpecs : List ((String → Bool) × (RealistData → String)) :=
  [(predAddress, RealistData.property_address),
   (predPrice, RealistData.listing_price),
   (predMls, RealistData.mls_number),
   (predSqft, RealistData.square_footage),
   (predLotSize, RealistData.lot_size),
   (predYearBuilt, RealistData.year_built),
   (predBed, RealistData.bedrooms),
   (predBath, RealistData.bathrooms),
   (predPropType, RealistData.property_type),
   (predTaxId, RealistData.tax_id),
   (predLegal, RealistData.legal_description),
   (predSubdivision, RealistData.subdivision),
   (predZoning, RealistData.zoning),
   (predAssessed, RealistData.assessed_value),
   (predOwner, RealistData.owner_of_record)]

lemma foldl_proj {p : String → Bool} {g : RealistData → String}
    (hg : ∀ (r : RealistData) (l : String),
      g (updateLine r l) = if p l then pyStrip l else g r) :
    ∀ (ls : List String) (r : RealistData),
      g (ls.foldl updateLine r) =
        ls.foldl (fun a l => if p l then pyStrip l else a) (g r) := by
  intro ls
  induction ls with
  | nil => intro r; rfl
  | cons x xs ih =>
    intro r
    simp only [List.foldl_cons]
    rw [ih, hg]

lemma foldl_last_match {p : String → Bool} :
    ∀ (ls : List String) (a l : String), (ls.filter p).getLast? = some l →
      ls.foldl (fun a l => if p l then pyStrip l else a) a = pyStrip l := by
  intro ls
  induction ls using List.reverseRecOn with
  | nil => intro a l h; simp at h
  | append_singleton xs x ih =>
    intro a l h
    rw [List.foldl_append]
    rw [List.filter_append] at h
    cases hx : p x with
    | true =>
      simp only [List.filter_cons, hx, if_true, List.filter_nil,
        List.getLast?_concat, Option.some.injEq] at h
      subst h
      simp [hx]
    | false =>
      simp only [List.filter_cons, hx, Bool.false_eq_true, if_false,
        List.filter_nil, List.append_nil] at h
      simp only [List.foldl_cons, List.foldl_nil, hx]
      exact ih a l h

/-- C4: for every field of the extraction record, when several input lines
satisfy that field predicate, the stored value is the trimmed text of the
last matching line in line order (later matching lines overwrite earlier
ones). -/
theorem extract_last_match_wins :
    ∀ pg ∈ fieldSpecs, ∀ (lines : List String) (l : String),
      (lines.filter pg.1).getLast? = some l →
      pg.2 (extract_realist_data (some lines)) = pyStrip l := by
  intro pg hpg lines l hl
  simp only [fieldSpecs, List.mem_cons, List.not_mem_nil, or_false] at hpg
  rcases hpg with rfl | rfl | rfl | rfl | rfl | rfl | rfl | rfl | rfl | rfl | rfl |
    rfl | rfl | rfl | rfl
  all_goals
    exact (foldl_proj (fun r l' => rfl) lines emptyRealist).trans
      (foldl_last_match lines _ l hl)

/-- Witness for C4: two lines match the bedrooms predicate and the second
one wins. -/
theorem extract_last_match_wins_witness :
    (predBed, RealistData.bedrooms) ∈ fieldSpecs ∧
    ((["Beds: 3", "Beds: 4"].filter predBed).getLast? = some "Beds: 4") ∧
    RealistData.bedrooms (extract_realist_data (some ["Beds: 3", "Beds: 4"])) =
      pyStrip "Beds: 4" := by
  have hm : (predBed, RealistData.bedrooms) ∈ fieldSpecs := by
    unfold fieldSpecs
    exact List.mem_cons_of_mem _ (List.mem_cons_of_mem _ (List.mem_cons_of_mem _
      (List.mem_cons_of_mem _ (List.mem_cons_of_mem _ (List.mem_cons_of_mem _
        (List.mem_cons_self _ _))))))
  exact ⟨hm, by decide,
    extract_last_match_wins (predBed, RealistData.bedrooms) hm
      ["Beds: 3", "Beds: 4"] "Beds: 4" (by decide)⟩

/-- Function `calculate_transaction_deadlines` from mira_app.py.  Dates are day
numbers; `datetime.timedelta(days = k)` is integer addition.  The list
order is the Python dict insertion order of the function body. -/
def calculate_transaction_deadlines (contract_date : Int) (contract_type : String) :
    List (String × Int) :=
  if contract_type = "purchase" then
    [("inspection_period", contract_date + 10),
     ("financing_contingency", contract_date + 21),
     ("appraisal_contingency", contract_date + 21),
     ("settlement_date", contract_date + 30),
     ("title_commitment", contract_date + 15)]
  else []

/-- The deadline-filter loop of `get_upcoming_deadlines`: keep the
deadlines whose `days_until = deadline_date - today` lies in `[0, 3]`,
in the enumeration order of the deadline mapping, attaching `days_until`. -/
def approachingOf : List (String × Int) → Int → List (String × Int × Int)
  | [], _ => []
  | p :: rest, today =>
    if 0 ≤ p.2 - today ∧ p.2 - today ≤ 3 then
      (p.1, p.2, p.2 - today) :: approachingOf rest today
    else approachingOf rest today

/-- The five purchase deadlines listed in the order the specification
names them (inspection, title, financing, appraisal, settlement).
Modelled from the spec: comparison order for the C2 refinement claim. -/
def specOrderDeadlines (d : Int) : List (String × Int) :=
  [("inspection_period", d + 10),
   ("title_commitment", d + 15),
   ("financing_contingency", d + 21),
   ("appraisal_contingency", d + 21),
   ("settlement_date", d + 30)]

/-- C1: for every date `d`, the purchase deadline set has exactly the five
entries inspection +10, title +15, financing +21, appraisal +21,
settlement +30, and every other contract type yields an empty set. -/
theorem calculate_deadlines_spec (d : Int) (ct : String) (hct : ct ≠ "purchase") :
    (calculate_transaction_deadlines d "purchase").length = 5 ∧
    (∀ e : String × Int, e ∈ calculate_transaction_deadlines d "purchase" ↔
      e ∈ specOrderDeadlines d) ∧
    calculate_transaction_deadlines d ct = [] := by
  refine ⟨by simp [calculate_transaction_deadlines], ?_, ?_⟩
  · intro e
    simp only [calculate_transaction_deadlines, specOrderDeadlines,
      eq_self_iff_true, if_true, List.mem_cons, List.not_mem_nil, or_false]
    tauto
  · simp only [calculate_transaction_deadlines, if_neg hct]

/-- Witness for C1 at a concrete date and a non-purchase contract type. -/
theorem calculate_deadlines_spec_witness :
    ("lease" : String) ≠ "purchase" ∧
    (("settlement_date", (30 : Int)) ∈ calculate_transaction_deadlines 0 "purchase") ∧
    calculate_transaction_deadlines 0 "lease" = [] :=
  ⟨by decide,
   ((calculate_deadlines_spec 0 "lease" (by decide)).2.1 _).mpr (by decide),
   (calculate_deadlines_spec 0 "lease" (by decide)).2.2⟩

/-- C2: for every contract date and every current date, the approaching
list produced by the deadline-monitoring filter over the purchase deadline
set enumerates the qualifying deadlines in the order the specification
lists the deadline names (inspection, title, financing, appraisal,
settlement): within the three-day window no deadline pair whose relative
order differs between the code mapping and that listing can qualify
together, so the produced list coincides with the spec-order enumeration. -/
theorem approaching_order_spec (d today : Int) :
    approachingOf (calculate_transaction_deadlines d "purchase") today =
      approachingOf (specOrderDeadlines d) today := by
  simp only [calculate_transaction_deadlines, specOrderDeadlines, if_pos rfl,
    approachingOf]
  split_ifs <;> first | rfl | omega

/-- One text drawing placed by `canvas.drawString(x, y, text)`. -/
structure Mark where
  x : Nat
  y : Nat
  text : String
deriving DecidableEq

/-- A document page, modelled as the list of its content marks. -/
abbrev Page := List Mark

/-- Model of Python `fields.get(key, "")` over the field dict, passed as an
association list with the first binding of a key winning. -/
def fieldGet (fields : List (String × String)) (key : String) : String :=
  match fields.find? (fun p => p.1 == key) with
  | some p => p.2
  | none => ""

/-- The transparent annotation layer drawn by
`autopopulate_purchase_agreement`: the four known fields at their fixed
page-1 coordinates, missing values drawn as empty strings. -/
def overlayLayer (fields : List (String × String)) : Page :=
  [⟨90, 735, fieldGet fields "buyer_name"⟩,
   ⟨140, 695, fieldGet fields "property_address"⟩,
   ⟨100, 560, fieldGet fields "price"⟩,
   ⟨500, 695, fieldGet fields "mls"⟩]

/-- Model of `base_page.merge_page(overlay_page)`: the overlay content composes
over the base content; nothing of the base page is removed. -/
def mergePage (base overlayPage : Page) : Page := base ++ overlayPage

/-- Function `autopopulate_purchase_agreement` from mira_app.py: merge the
annotation layer onto page 1 and copy the remaining pages unchanged.
`none` models the uncaught IndexError on an empty template
(`base_pdf.pages[0]`). -/
def autopopulate_purchase_agreement (basePages : List Page)
    (fields : List (String × String)) : Option (List Page) :=
  match basePages with
  | [] => none
  | p :: rest => some (mergePage p (overlayLayer fields) :: rest)

/-- C5: on an N-page template (page `p` followed by `rest`), the overlay
operation outputs N pages; page 1 is the template page 1 with the
annotation layer merged onto it and all template content preserved, and
pages 2..N are the template pages copied unchanged in order. -/
theorem autopopulate_pages_spec (p : Page) (rest : List Page)
    (fields : List (String × String)) :
    autopopulate_purchase_agreement (p :: rest) fields =
      some (mergePage p (overlayLayer fields) :: rest) ∧
    (mergePage p (overlayLayer fields) :: rest).length = (p :: rest).length ∧
    (∀ m ∈ p, m ∈ mergePage p (overlayLayer fields)) ∧
    (mergePage p (overlayLayer fields) :: rest).tail = rest := by
  refine ⟨rfl, rfl, ?_, rfl⟩
  intro m hm
  exact List.mem_append_left _ hm

/-- The valid review actions of the `/agent_review` endpoint. -/
def valid_actions : List String := ["approve", "reject", "request_changes"]

/-- Function `agent_review_contract` from mira_app.py, as the function from the
current stored status of the lead and the submitted action to the status
written back.  An action outside `valid_actions` raises HTTP 400 before
any database write, modelled as `Except.error 400`; the `status_map` dict
lookup over the three validated keys is written as conditionals.  The
current status is never read by the endpoint. -/
def agent_review_contract (current_status action : String) : Except Nat String :=
  if action ∈ valid_actions then
    Except.ok (if action = "approve" then "docusign_ready"
      else if action = "reject" then "needs_attention"
      else "needs_attention")
  else Except.error 400

/-- C6: from any current status, approve yields docusign_ready (in
particular from contract_drafted), reject and request_changes yield
needs_attention, and any other action is rejected as invalid input with
HTTP 400 and no status change. -/
theorem agent_review_spec (current a : String) (ha : a ∉ valid_actions) :
    agent_review_contract current "approve" = Except.ok "docusign_ready" ∧
    agent_review_contract current "reject" = Except.ok "needs_attention" ∧
    agent_review_contract current "request_changes" = Except.ok "needs_attention" ∧
    agent_review_contract current a = Except.error 400 := by
  refine ⟨rfl, rfl, rfl, ?_⟩
  simp only [agent_review_contract, if_neg ha]

/-- Witness for C6 at concrete statuses and actions. -/
theorem agent_review_spec_witness :
    ("finalize" : String) ∉ valid_actions ∧
    agent_review_contract "contract_drafted" "approve" = Except.ok "docusign_ready" ∧
    agent_review_contract "contract_drafted" "finalize" = Except.error 400 :=
  ⟨by decide,
   (agent_review_spec "contract_drafted" "finalize" (by decide)).1,
   (agent_review_spec "contract_drafted" "finalize" (by decide)).2.2.2⟩

/-- C10: for every valid action the new status written by the review
endpoint is the same whatever the current status of the lead is; the
endpoint never reads the current status, and approve yields
docusign_ready even from states other than contract_drafted. -/
theorem agent_review_ignores_status (s1 s2 a : String) (ha : a ∈ valid_actions) :
    agent_review_contract s1 a = agent_review_contract s2 a ∧
    agent_review_contract s1 "approve" = Except.ok "docusign_ready" :=
  ⟨rfl, rfl⟩

/-- Witness for C10: reject behaves identically from two different
states, and approve succeeds from the state new. -/
theorem agent_review_ignores_status_witness :
    ("reject" : String) ∈ valid_actions ∧
    agent_review_contract "new" "reject" = agent_review_contract "completed" "reject" ∧
    agent_review_contract "new" "approve" = Except.ok "docusign_ready" :=
  ⟨by decide,
   (agent_review_ignores_status "new" "completed" "reject" (by decide)).1,
   (agent_review_ignores_status "new" "completed" "reject" (by decide)).2⟩

/-- The `status_map` dict of the dashboard endpoint, in insertion order. -/
def status_map_pairs : List (String × String) :=
  [("new", "🆕 New Leads"),
   ("realist_added", "📋 Realist Data Added"),
   ("contract_drafted", "📄 Contract Drafted"),
   ("awaiting_review", "👀 Awaiting Agent Review"),
   ("docusign_ready", "✍️ DocuSign Ready"),
   ("pending_signatures", "⏰ Pending Signatures"),
   ("completed", "✅ Completed")]

/-- The dashboard status classifier:
`normalized = (status or "").strip().lower()` followed by
`status_map.get(normalized, "❓ Needs Attention")`. -/
def classify_status (raw : String) : String :=
  (List.lookup (pyLower (pyStrip raw)) status_map_pairs).getD "❓ Needs Attention"

/-- C7 counterexample: the internal-whitespace variant DocuSign Ready
normalizes to a key outside the status map and is bucketed into the
needs-attention sentinel, while docusign_ready is bucketed into the
DocuSign Ready bucket, so the two variants do not classify to the same
canonical bucket. -/
theorem classify_status_counterexample :
    classify_status "DocuSign Ready" = "❓ Needs Attention" ∧
    classify_status "docusign_ready" = "✍️ DocuSign Ready" ∧
    classify_status "DocuSign Ready" ≠ classify_status "docusign_ready" := by
  refine ⟨by decide, by decide, by decide⟩

/-- C7 amended: the classifier first normalizes by trimming and
lowercasing, so any two raw statuses with the same normal form (case
variants and leading/trailing-whitespace variants) classify to the same
canonical bucket, and every normalized value outside the canonical
vocabulary is classified into the needs-attention sentinel bucket rather
than rejected; internal whitespace is not normalized. -/
theorem classify_status_amended :
    (∀ s t : String, pyLower (pyStrip s) = pyLower (pyStrip t) →
      classify_status s = classify_status t) ∧
    (∀ s : String, List.lookup (pyLower (pyStrip s)) status_map_pairs = none →
      classify_status s = "❓ Needs Attention") := by
  constructor
  · intro s t h
    unfold classify_status
    rw [h]
  · intro s h
    unfold classify_status
    rw [h]
    rfl

/-- Witness for the amended C7 at concrete raw statuses. -/
theorem classify_status_amended_witness :
    pyLower (pyStrip "  DOCUSIGN_READY  ") = pyLower (pyStrip "docusign_ready") ∧
    classify_status "  DOCUSIGN_READY  " = classify_status "docusign_ready" ∧
    List.lookup (pyLower (pyStrip "archived")) status_map_pairs = none ∧
    classify_status "archived" = "❓ Needs Attention" :=
  ⟨by decide,
   classify_status_amended.1 "  DOCUSIGN_READY  " "docusign_ready" (by decide),
   by decide,
   classify_status_amended.2 "archived" (by decide)⟩

/-- The `valid_statuses` list of the `/update_status` endpoint. -/
def valid_statuses : List String :=
  ["new", "realist_added", "contract_drafted", "awaiting_review",
   "docusign_ready", "pending_signatures", "completed", "needs_attention"]

/-- Function `update_status` from mira_app.py: reject the request with HTTP 400
when the lowercased status is outside `valid_statuses`, otherwise store
the lowercased status. -/
def update_status (new_status : String) : Except Nat String :=
  if pyLower new_status ∈ valid_statuses then Except.ok (pyLower new_status)
  else Except.error 400

/-- C8 counterexample: the status-update transition endpoint rejects an
unrecognized status with HTTP 400 instead of bucketing it into
needs_attention, so not every status-taking operation buckets
unrecognized values. -/
theorem update_status_counterexample :
    update_status "archived" = Except.error 400 := rfl

/-- C8 amended: the classification path never rejects an unrecognized
status and buckets it into the needs-attention sentinel, but the
status-update transition endpoint validates against the canonical
vocabulary and rejects unrecognized statuses with HTTP 400, storing the
lowercased status only when it is recognized. -/
theorem status_input_handling_amended :
    (∀ s : String, List.lookup (pyLower (pyStrip s)) status_map_pairs = none →
      classify_status s = "❓ Needs Attention") ∧
    (∀ s : String, pyLower s ∉ valid_statuses → update_status s = Except.error 400) ∧
    (∀ s : String, pyLower s ∈ valid_statuses → update_status s = Except.ok (pyLower s)) := by
  refine ⟨?_, ?_, ?_⟩
  · intro s h
    unfold classify_status
    rw [h]
    rfl
  · intro s h
    unfold update_status
    rw [if_neg h]
  · intro s h
    unfold update_status
    rw [if_pos h]

/-- Witness for the amended C8 at concrete statuses. -/
theorem status_input_handling_amended_witness :
    classify_status "archived" = "❓ Needs Attention" ∧
    update_status "archived" = Except.error 400 ∧
    update_status "NEW" = Except.ok "new" := by
  refine ⟨status_input_handling_amended.1 "archived" (by decide),
    status_input_handling_amended.2.1 "archived" (by decide), ?_⟩
  have h := status_input_handling_amended.2.2 "NEW" (by decide)
  exact h.trans (congrArg Except.ok (by decide))

/-- The flat key/value pairs persisted for a record by
`json.dumps(extracted_data)` in `upload_realist_data`, in dict insertion
order. -/
def toPersistedPairs (r : RealistData) : List (String × String) :=
  [("property_address", r.property_address),
   ("listing_price", r.listing_price),
   ("mls_number", r.mls_number),
   ("square_footage", r.square_footage),
   ("lot_size", r.lot_size),
   ("year_built", r.year_built),
   ("bedrooms", r.bedrooms),
   ("bathrooms", r.bathrooms),
   ("property_type", r.property_type),
   ("tax_id", r.tax_id),
   ("legal_description", r.legal_description),
   ("subdivision", r.subdivision),
   ("zoning", r.zoning),
   ("assessed_value", r.assessed_value),
   ("owner_of_record", r.owner_of_record),
   ("listing_agent", r.listing_agent),
   ("listing_office", r.listing_office)]

/-- The seventeen keys the code persists. -/
def realist_json_keys : List String :=
  ["property_address", "listing_price", "mls_number", "square_footage",
   "lot_size", "year_built", "bedrooms", "bathrooms", "property_type",
   "tax_id", "legal_description", "subdivision", "zoning", "assessed_value",
   "owner_of_record", "listing_agent", "listing_office"]

/-- The seventeen field names the specification gives for PropertyRecord.
Modelled from the spec: comparison key list for the C9 claim. -/
def spec_property_record_keys : List String :=
  ["address", "listing_price", "mls_number", "square_footage", "lot_size",
   "year_built", "bedroom_count", "bathroom_count", "property_type",
   "tax_id", "legal_description", "subdivision", "zoning", "assessed_value",
   "owner_of_record", "listing_agent", "listing_office"]

/-- C9 counterexample: the persisted object has no key address (it uses
property_address), so its key set is not the key set the claim names. -/
theorem persisted_keys_counterexample :
    "address" ∉ (toPersistedPairs emptyRealist).map Prod.fst ∧
    "property_address" ∈ (toPersistedPairs emptyRealist).map Prod.fst ∧
    (toPersistedPairs emptyRealist).map Prod.fst ≠ spec_property_record_keys := by
  refine ⟨by decide, by decide, by decide⟩

/-- C9 amended: the persisted representation of a record is a flat
key/value object whose keys are exactly the seventeen dict keys of the
code: property_address, listing_price, mls_number, square_footage,
lot_size, year_built, bedrooms, bathrooms, property_type, tax_id,
legal_description, subdivision, zoning, assessed_value, owner_of_record,
listing_agent, listing_office. -/
theorem persisted_keys_amended (r : RealistData) :
    (toPersistedPairs r).map Prod.fst = realist_json_keys := rfl
